import Mathlib

/-!
Shallow embedding of the Simple-budget-tracker server (`src/main.go`).

The backend is a Go HTTP service holding a single `{balance, budget}` pair
of `int32` values.  We model `int32` values as `Int` together with explicit
two's-complement wrapping (`wrap32`) exactly where the Go code performs
32-bit arithmetic, the on-disk state file as a `List Nat` of bytes, the two
audit log streams as lists of records appended per request, and each HTTP
handler (wrapped by the authorization middleware) as a pure function from
(allowlist, persistence result, state, disk, request) to an outcome.
Wall-clock date/time fields of audit lines are outside this embedding; a
transaction record is modelled by its `(user, action, amount)` portion and
an unauthorized record by its `(user, remoteAddr)` portion.
-/

namespace Budget

/-- Go constant `maxBalance int32 = 2000000000` (`main.go:27`). -/
def maxBalance : Int := 2000000000

/-- The single-transaction cap hard-coded in `handleSpend` (`main.go:334`). -/
def spendLimit : Int := 100000000

/-- Two's-complement wrapping of an integer into the `int32` range,
the semantics of Go `int32` arithmetic. -/
def wrap32 (n : Int) : Int := (n + 2147483648) % 4294967296 - 2147483648

/-- `n` is representable as a Go `int32`. -/
def isInt32 (n : Int) : Prop := -2147483648 ≤ n ∧ n ≤ 2147483647

instance (n : Int) : Decidable (isInt32 n) := by
  unfold isInt32
  infer_instance

/-- In-memory ledger state: the `balance` and `budget` fields of `Server`
(`main.go:73-74`), both Go `int32`. -/
structure LedgerState where
  balance : Int
  budget : Int
deriving DecidableEq

/-- Both fields of the state are in `int32` range. -/
def stValid (s : LedgerState) : Prop := isInt32 s.balance ∧ isInt32 s.budget

instance (s : LedgerState) : Decidable (stValid s) := by
  unfold stValid
  infer_instance

/-- The `uint32` bit pattern of an `int32` value, as in Go `uint32(s.balance)`. -/
def bitsOf (n : Int) : Nat := (n % 4294967296).toNat

/-- Little-endian 4-byte encoding of a `uint32`, as in
`binary.LittleEndian.PutUint32`. -/
def le32 (v : Nat) : List Nat := [v % 256, v / 256 % 256, v / 65536 % 256, v / 16777216 % 256]

/-- Little-endian decoding of a byte list, as in `binary.LittleEndian.Uint32`. -/
def fromLE : List Nat → Nat
  | [] => 0
  | b :: r => b + 256 * fromLE r

/-- `saveData` serialization (`main.go:216-219`): 4 little-endian bytes of the
balance bit pattern followed by 4 little-endian bytes of the budget. -/
def encodeState (s : LedgerState) : List Nat :=
  le32 (bitsOf s.balance) ++ le32 (bitsOf s.budget)

/-- The 8-byte branch of `loadData` (`main.go:198-202`): reinterpret each
little-endian `uint32` as an `int32` (`int32(binary.LittleEndian.Uint32(...))`),
which is exactly `wrap32` on the unsigned value. -/
def decodeState (data : List Nat) : Option LedgerState :=
  if data.length = 8 then
    some ⟨wrap32 (fromLE (data.take 4)), wrap32 (fromLE (data.drop 4))⟩
  else
    none

/-- `loadData` (`main.go:181-206`).  Input `none` models a missing state file.
The second component of a successful result is the file content after loading
(a 4-byte legacy file is immediately re-saved in the 8-byte format). -/
def loadData (file : Option (List Nat)) : Except String (LedgerState × Option (List Nat)) :=
  match file with
  | none => .ok (⟨0, 0⟩, none)
  | some data =>
    if data.length = 4 then
      let st : LedgerState := ⟨wrap32 (fromLE data), 0⟩
      .ok (st, some (encodeState st))
    else if data.length = 8 then
      .ok (⟨wrap32 (fromLE (data.take 4)), wrap32 (fromLE (data.drop 4))⟩, some data)
    else
      .error "invalid data length"

/-- A transaction audit record (`logTransaction`, `main.go:403-408`), modelled
by its user, action and amount fields (date/time are wall-clock). -/
structure TransRec where
  user : String
  action : String
  amount : Int
deriving DecidableEq

/-- An unauthorized-access audit record (`logUnauthorized`, `main.go:411-416`),
modelled by its user and remote-address fields. -/
structure UnauthRec where
  user : String
  remoteAddr : String
deriving DecidableEq

/-- An HTTP response body: empty (`OPTIONS`), plain text (errors and the
`/set`, `/spend` decimal balance), or the JSON `GetResponse` pair. -/
inductive Body where
  | empty : Body
  | text : String → Body
  | json : Int → Int → Body
deriving DecidableEq

/-- The four registered routes (`main.go:133-136`). -/
inductive Route where
  | get : Route
  | set : Route
  | spend : Route
  | setBudget : Route
deriving DecidableEq

/-- An incoming HTTP request as seen by the middleware and handlers.
`bodyOk` models whether the JSON body decodes; `amount` is the decoded
`amount` (or `budget`) field, an `int32` whenever Go could produce it. -/
structure Request where
  route : Route
  method : String
  auth : String
  remoteAddr : String
  bodyOk : Bool
  amount : Int
deriving DecidableEq

/-- The observable outcome of serving one request: HTTP status, body, the
in-memory state and state-file bytes afterwards, the transaction-log and
unauthorized-log records appended, and whether the wrapped handler ran. -/
structure Outcome where
  status : Nat
  body : Body
  st : LedgerState
  disk : List Nat
  trans : List TransRec
  unauth : List UnauthRec
  handlerRun : Bool
deriving DecidableEq

/-- `handleGet` (`main.go:259-274`): GET only, pure read of the pair. -/
def handleGet (st : LedgerState) (disk : List Nat) (r : Request) : Outcome :=
  if r.method ≠ "GET" then
    ⟨405, .text "Method not allowed", st, disk, [], [], true⟩
  else
    ⟨200, .json st.balance st.budget, st, disk, [], [], true⟩

/-- `handleSet` (`main.go:277-314`): POST only; reject `amount > maxBalance`;
set the balance absolutely; persist; on persist failure answer 500 with no
audit record (the in-memory balance has already been overwritten).  The
`disk` component of the persist-failure branch is a placeholder: a failed
`saveData` does not determine the file's bytes (it opens with `O_TRUNC`
before writing, `main.go:221`), so theorems about the failure path quantify
over the possible residues via `stepPersistFail` instead of reading this
field. -/
def handleSet (persistOk : Bool) (st : LedgerState) (disk : List Nat) (r : Request) : Outcome :=
  if r.method ≠ "POST" then
    ⟨405, .text "Method not allowed", st, disk, [], [], true⟩
  else if r.bodyOk = false then
    ⟨400, .text "Invalid body", st, disk, [], [], true⟩
  else if r.amount > maxBalance then
    ⟨400, .text "Amount exceeds limit", st, disk, [], [], true⟩
  else
    let st2 : LedgerState := { st with balance := r.amount }
    if persistOk then
      ⟨200, .text (toString st2.balance), st2, encodeState st2,
        [⟨r.auth, "SET", r.amount⟩], [], true⟩
    else
      ⟨500, .text "Internal Server Error", st2, disk, [], [], true⟩

/-- `handleSpend` (`main.go:317-351`): POST only; reject amounts outside
`±spendLimit`; otherwise `balance -= amount` in `int32` arithmetic; persist;
on persist failure answer 500 with no audit record.  As in `handleSet`, the
`disk` component of the persist-failure branch is a placeholder; the
faithful failure-path disk model is `stepPersistFail`. -/
def handleSpend (persistOk : Bool) (st : LedgerState) (disk : List Nat) (r : Request) : Outcome :=
  if r.method ≠ "POST" then
    ⟨405, .text "Method not allowed", st, disk, [], [], true⟩
  else if r.bodyOk = false then
    ⟨400, .text "Invalid body", st, disk, [], [], true⟩
  else if r.amount > spendLimit ∨ r.amount < -spendLimit then
    ⟨400, .text "Transaction too large", st, disk, [], [], true⟩
  else
    let st2 : LedgerState := { st with balance := wrap32 (st.balance - r.amount) }
    if persistOk then
      ⟨200, .text (toString st2.balance), st2, encodeState st2,
        [⟨r.auth, "SPEND", r.amount⟩], [], true⟩
    else
      ⟨500, .text "Internal Server Error", st2, disk, [], [], true⟩

/-- `handleSetBudget` (`main.go:354-400`): POST only; reject budgets outside
`[0, maxBalance]`; otherwise `diff := budget - oldBudget`,
`balance += diff`, `budget := budget` in `int32` arithmetic; persist; the
audit record logs the requested budget, not the diff.  As in `handleSet`,
the `disk` component of the persist-failure branch is a placeholder; the
faithful failure-path disk model is `stepPersistFail`. -/
def handleSetBudget (persistOk : Bool) (st : LedgerState) (disk : List Nat) (r : Request) : Outcome :=
  if r.method ≠ "POST" then
    ⟨405, .text "Method not allowed", st, disk, [], [], true⟩
  else if r.bodyOk = false then
    ⟨400, .text "Invalid body", st, disk, [], [], true⟩
  else if r.amount < 0 ∨ r.amount > maxBalance then
    ⟨400, .text "Invalid budget amount", st, disk, [], [], true⟩
  else
    let diff : Int := wrap32 (r.amount - st.budget)
    let st2 : LedgerState := ⟨wrap32 (st.balance + diff), r.amount⟩
    if persistOk then
      ⟨200, .json st2.balance st2.budget, st2, encodeState st2,
        [⟨r.auth, "BUDGET_CHANGE", r.amount⟩], [], true⟩
    else
      ⟨500, .text "Internal Server Error", st2, disk, [], [], true⟩

/-- `authMiddleware` wrapping the route handlers (`main.go:235-256` plus the
route table at `main.go:133-136`): `OPTIONS` short-circuits with 200 and no
body before any credential check; an empty or unknown `Authorization` value
is logged to the unauthorized stream and answered 401 without invoking the
handler; otherwise the route's handler runs. -/
def serverStep (users : List String) (persistOk : Bool) (st : LedgerState)
    (disk : List Nat) (r : Request) : Outcome :=
  if r.method = "OPTIONS" then
    ⟨200, .empty, st, disk, [], [], false⟩
  else if r.auth = "" ∨ r.auth ∉ users then
    ⟨401, .text "Unauthorized", st, disk, [], [⟨r.auth, r.remoteAddr⟩], false⟩
  else
    match r.route with
    | .get => handleGet st disk r
    | .set => handleSet persistOk st disk r
    | .spend => handleSpend persistOk st disk r
    | .setBudget => handleSetBudget persistOk st disk r

/-- Run a sequence of requests with persistence succeeding throughout,
threading the in-memory state and the state-file bytes. -/
def runRequests (users : List String) (reqs : List Request) (st : LedgerState)
    (disk : List Nat) : LedgerState × List Nat :=
  match reqs with
  | [] => (st, disk)
  | r :: rest =>
    let o := serverStep users true st disk r
    runRequests users rest o.st o.disk

/-- A request Go's JSON decoding could actually produce: whenever the body
decodes, the decoded field is an `int32`. -/
def reqValid (r : Request) : Prop := r.bodyOk = true → isInt32 r.amount

instance (r : Request) : Decidable (reqValid r) := by
  unfold reqValid
  infer_instance

/-- Startup behavior of `main` (`main.go:128-136`): on a `loadData` error it
logs a warning and continues; the four routes, the three mutating ones
included, are registered unconditionally. -/
structure StartupResult where
  st : LedgerState
  loadWarning : Bool
  mutationRoutes : Bool
deriving DecidableEq

/-- Model of `main`'s startup around `loadData`. -/
def startServer (file : Option (List Nat)) : StartupResult :=
  match loadData file with
  | .ok (st, _) => ⟨st, false, true⟩
  | .error _ => ⟨⟨0, 0⟩, true, true⟩

/-- The byte sequences a failed `saveData` (`main.go:216-231`) can leave in
the state file, given the previous contents `old` and the 8 bytes `new` it
attempted to write.  `saveData` opens the file with `O_RDWR|O_CREATE|O_TRUNC`
(`main.go:221`): if the open itself fails the file keeps `old`; once the open
succeeds the file is truncated, and a failing `Write` leaves some prefix of
`new` (possibly empty), while a full write whose `Sync` fails leaves all of
`new` (not durably).  All of these are `new.take k` for some `k ≤ 8`. -/
def failedSaveResidue (old new residue : List Nat) : Prop :=
  residue = old ∨ ∃ k, k ≤ 8 ∧ residue = new.take k

/-- Relational model of one request step whose `saveData` call fails: the
status, body, in-memory state and audit records are those computed by the
code on the persist-failure path (`serverStep … false …`, whose non-disk
components are exact), while the state file holds some residue a failed
truncate-then-write can leave behind. -/
def stepPersistFail (users : List String) (st : LedgerState) (disk : List Nat)
    (r : Request) (o : Outcome) : Prop :=
  ∃ residue : List Nat,
    failedSaveResidue disk (encodeState (serverStep users false st disk r).st) residue ∧
    o = { serverStep users false st disk r with disk := residue }

/- Arithmetic facts about `wrap32`. -/

theorem wrap32_isInt32 (n : Int) : isInt32 (wrap32 n) := by
  unfold wrap32 isInt32
  omega

theorem wrap32_eq_self {n : Int} (h : isInt32 n) : wrap32 n = n := by
  unfold wrap32 isInt32 at *
  omega

theorem wrap32_add_wrap (a b : Int) : wrap32 (a + wrap32 b) = wrap32 (a + b) := by
  unfold wrap32
  omega

theorem fromLE_le32 (v : Nat) : fromLE (le32 v) = v % 4294967296 := by
  simp only [le32, fromLE]
  omega

theorem bitsOf_cast (n : Int) : ((bitsOf n : Nat) : Int) = n % 4294967296 := by
  unfold bitsOf
  exact Int.toNat_of_nonneg (Int.emod_nonneg n (by norm_num))

theorem wrap32_le32_bitsOf {n : Int} (h : isInt32 n) :
    wrap32 ((fromLE (le32 (bitsOf n)) : Nat) : Int) = n := by
  rw [fromLE_le32]
  have h1 : (((bitsOf n % 4294967296 : Nat) : Nat) : Int) =
      ((bitsOf n : Nat) : Int) % 4294967296 := by
    push_cast
    ring
  rw [h1, bitsOf_cast]
  unfold wrap32 isInt32 at *
  omega

theorem encodeState_length (s : LedgerState) : (encodeState s).length = 8 := by
  simp [encodeState, le32]

/-- Round trip: decoding the 8 bytes written by `saveData` recovers the
in-memory pair exactly, for any pair of `int32` values. -/
theorem decodeState_encodeState {s : LedgerState} (h : stValid s) :
    decodeState (encodeState s) = some s := by
  obtain ⟨hb, hg⟩ := h
  unfold decodeState
  rw [if_pos (encodeState_length s)]
  have htake : (encodeState s).take 4 = le32 (bitsOf s.balance) := by
    simp [encodeState, le32]
  have hdrop : (encodeState s).drop 4 = le32 (bitsOf s.budget) := by
    simp [encodeState, le32]
  rw [htake, hdrop, wrap32_le32_bitsOf hb, wrap32_le32_bitsOf hg]

/- Dispatch lemmas for the middleware-wrapped routes. -/

theorem serverStep_route (users : List String) (pOk : Bool) (st : LedgerState)
    (disk : List Nat) (r : Request) (hmo : r.method ≠ "OPTIONS")
    (ha : ¬(r.auth = "" ∨ r.auth ∉ users)) :
    serverStep users pOk st disk r =
      (match r.route with
       | .get => handleGet st disk r
       | .set => handleSet pOk st disk r
       | .spend => handleSpend pOk st disk r
       | .setBudget => handleSetBudget pOk st disk r) := by
  unfold serverStep
  rw [if_neg hmo, if_neg ha]

theorem serverStep_set (users : List String) (pOk : Bool) (st : LedgerState)
    (disk : List Nat) (r : Request) (hr : r.route = .set) (hmo : r.method ≠ "OPTIONS")
    (ha : ¬(r.auth = "" ∨ r.auth ∉ users)) :
    serverStep users pOk st disk r = handleSet pOk st disk r := by
  rw [serverStep_route users pOk st disk r hmo ha, hr]

theorem serverStep_spend (users : List String) (pOk : Bool) (st : LedgerState)
    (disk : List Nat) (r : Request) (hr : r.route = .spend) (hmo : r.method ≠ "OPTIONS")
    (ha : ¬(r.auth = "" ∨ r.auth ∉ users)) :
    serverStep users pOk st disk r = handleSpend pOk st disk r := by
  rw [serverStep_route users pOk st disk r hmo ha, hr]

theorem serverStep_setBudget (users : List String) (pOk : Bool) (st : LedgerState)
    (disk : List Nat) (r : Request) (hr : r.route = .setBudget) (hmo : r.method ≠ "OPTIONS")
    (ha : ¬(r.auth = "" ∨ r.auth ∉ users)) :
    serverStep users pOk st disk r = handleSetBudget pOk st disk r := by
  rw [serverStep_route users pOk st disk r hmo ha, hr]

/- Outcome equations for each handler branch. -/

theorem handleSet_success (st : LedgerState) (disk : List Nat) (r : Request)
    (hm : r.method = "POST") (hb : r.bodyOk = true) (hle : r.amount ≤ maxBalance) :
    handleSet true st disk r =
      ⟨200, .text (toString r.amount), { st with balance := r.amount },
        encodeState { st with balance := r.amount }, [⟨r.auth, "SET", r.amount⟩], [], true⟩ := by
  unfold handleSet
  rw [if_neg (not_not_intro hm), if_neg (by simp [hb]), if_neg (by omega), if_pos rfl]

theorem handleSet_persistFail (st : LedgerState) (disk : List Nat) (r : Request)
    (hm : r.method = "POST") (hb : r.bodyOk = true) (hle : r.amount ≤ maxBalance) :
    handleSet false st disk r =
      ⟨500, .text "Internal Server Error", { st with balance := r.amount },
        disk, [], [], true⟩ := by
  unfold handleSet
  rw [if_neg (not_not_intro hm), if_neg (by simp [hb]), if_neg (by omega), if_neg (by simp)]

theorem handleSpend_success (st : LedgerState) (disk : List Nat) (r : Request)
    (hm : r.method = "POST") (hb : r.bodyOk = true)
    (hlo : -spendLimit ≤ r.amount) (hhi : r.amount ≤ spendLimit) :
    handleSpend true st disk r =
      ⟨200, .text (toString (wrap32 (st.balance - r.amount))),
        { st with balance := wrap32 (st.balance - r.amount) },
        encodeState { st with balance := wrap32 (st.balance - r.amount) },
        [⟨r.auth, "SPEND", r.amount⟩], [], true⟩ := by
  unfold handleSpend
  rw [if_neg (not_not_intro hm), if_neg (by simp [hb]), if_neg (by omega), if_pos rfl]

theorem handleSpend_reject (pOk : Bool) (st : LedgerState) (disk : List Nat) (r : Request)
    (hm : r.method = "POST") (hb : r.bodyOk = true)
    (hout : spendLimit < r.amount ∨ r.amount < -spendLimit) :
    handleSpend pOk st disk r =
      ⟨400, .text "Transaction too large", st, disk, [], [], true⟩ := by
  unfold handleSpend
  rw [if_neg (not_not_intro hm), if_neg (by simp [hb]), if_pos hout]

theorem handleSpend_persistFail (st : LedgerState) (disk : List Nat) (r : Request)
    (hm : r.method = "POST") (hb : r.bodyOk = true)
    (hlo : -spendLimit ≤ r.amount) (hhi : r.amount ≤ spendLimit) :
    handleSpend false st disk r =
      ⟨500, .text "Internal Server Error",
        { st with balance := wrap32 (st.balance - r.amount) }, disk, [], [], true⟩ := by
  unfold handleSpend
  rw [if_neg (not_not_intro hm), if_neg (by simp [hb]), if_neg (by omega), if_neg (by simp)]

theorem handleSetBudget_success (st : LedgerState) (disk : List Nat) (r : Request)
    (hm : r.method = "POST") (hb : r.bodyOk = true)
    (hlo : 0 ≤ r.amount) (hhi : r.amount ≤ maxBalance) :
    handleSetBudget true st disk r =
      ⟨200, .json (wrap32 (st.balance + wrap32 (r.amount - st.budget))) r.amount,
        ⟨wrap32 (st.balance + wrap32 (r.amount - st.budget)), r.amount⟩,
        encodeState ⟨wrap32 (st.balance + wrap32 (r.amount - st.budget)), r.amount⟩,
        [⟨r.auth, "BUDGET_CHANGE", r.amount⟩], [], true⟩ := by
  unfold handleSetBudget
  rw [if_neg (not_not_intro hm), if_neg (by simp [hb]), if_neg (by omega), if_pos rfl]

theorem handleSetBudget_persistFail (st : LedgerState) (disk : List Nat) (r : Request)
    (hm : r.method = "POST") (hb : r.bodyOk = true)
    (hlo : 0 ≤ r.amount) (hhi : r.amount ≤ maxBalance) :
    handleSetBudget false st disk r =
      ⟨500, .text "Internal Server Error",
        ⟨wrap32 (st.balance + wrap32 (r.amount - st.budget)), r.amount⟩,
        disk, [], [], true⟩ := by
  unfold handleSetBudget
  rw [if_neg (not_not_intro hm), if_neg (by simp [hb]), if_neg (by omega), if_neg (by simp)]

/- Preservation of `stValid` and of the disk/memory agreement by one step
(with persistence succeeding). -/

theorem handleGet_preserves (st : LedgerState) (disk : List Nat) (r : Request)
    (hv : stValid st) (hd : disk = encodeState st) :
    stValid (handleGet st disk r).st ∧
      (handleGet st disk r).disk = encodeState (handleGet st disk r).st := by
  unfold handleGet
  split
  · exact ⟨hv, hd⟩
  · exact ⟨hv, hd⟩

theorem handleSet_preserves (st : LedgerState) (disk : List Nat) (r : Request)
    (hv : stValid st) (hd : disk = encodeState st) (hr : reqValid r) :
    stValid (handleSet true st disk r).st ∧
      (handleSet true st disk r).disk = encodeState (handleSet true st disk r).st := by
  unfold handleSet
  split
  · exact ⟨hv, hd⟩
  split
  · exact ⟨hv, hd⟩
  split
  · exact ⟨hv, hd⟩
  rw [if_pos rfl]
  next h2 h3 =>
    have hb : r.bodyOk = true := by
      revert h2
      simp
    exact ⟨⟨hr hb, hv.2⟩, rfl⟩

theorem handleSpend_preserves (st : LedgerState) (disk : List Nat) (r : Request)
    (hv : stValid st) (hd : disk = encodeState st) :
    stValid (handleSpend true st disk r).st ∧
      (handleSpend true st disk r).disk = encodeState (handleSpend true st disk r).st := by
  unfold handleSpend
  split
  · exact ⟨hv, hd⟩
  split
  · exact ⟨hv, hd⟩
  split
  · exact ⟨hv, hd⟩
  rw [if_pos rfl]
  exact ⟨⟨wrap32_isInt32 _, hv.2⟩, rfl⟩

theorem handleSetBudget_preserves (st : LedgerState) (disk : List Nat) (r : Request)
    (hv : stValid st) (hd : disk = encodeState st) :
    stValid (handleSetBudget true st disk r).st ∧
      (handleSetBudget true st disk r).disk = encodeState (handleSetBudget true st disk r).st := by
  unfold handleSetBudget
  split
  · exact ⟨hv, hd⟩
  split
  · exact ⟨hv, hd⟩
  split
  · exact ⟨hv, hd⟩
  rw [if_pos rfl]
  next h2 h3 =>
    refine ⟨⟨wrap32_isInt32 _, ?_⟩, rfl⟩
    show isInt32 r.amount
    unfold isInt32 maxBalance at *
    omega

theorem serverStep_preserves (users : List String) (st : LedgerState) (disk : List Nat)
    (r : Request) (hv : stValid st) (hd : disk = encodeState st) (hr : reqValid r) :
    stValid (serverStep users true st disk r).st ∧
      (serverStep users true st disk r).disk =
        encodeState (serverStep users true st disk r).st := by
  unfold serverStep
  split
  · exact ⟨hv, hd⟩
  split
  · exact ⟨hv, hd⟩
  match r.route with
  | .get => exact handleGet_preserves st disk r hv hd
  | .set => exact handleSet_preserves st disk r hv hd hr
  | .spend => exact handleSpend_preserves st disk r hv hd
  | .setBudget => exact handleSetBudget_preserves st disk r hv hd

theorem runRequests_preserves (users : List String) (reqs : List Request) :
    ∀ (st : LedgerState) (disk : List Nat), stValid st → disk = encodeState st →
      (∀ r ∈ reqs, reqValid r) →
      stValid (runRequests users reqs st disk).1 ∧
        (runRequests users reqs st disk).2 =
          encodeState (runRequests users reqs st disk).1 := by
  induction reqs with
  | nil =>
    intro st disk hv hd _
    exact ⟨hv, hd⟩
  | cons r rest ih =>
    intro st disk hv hd hall
    have h := serverStep_preserves users st disk r hv hd (hall r (by simp))
    have hrest : ∀ x ∈ rest, reqValid x := fun x hx => hall x (by simp [hx])
    exact ih _ _ h.1 h.2 hrest

/-- Claim C1.  The spec's invariant `balance ≤ MAX_BALANCE` after any accepted
mutation, and its demand that operations whose post-condition leaves the
`int32` range or the caps be rejected, both fail on the code: starting from
the accepted state `balance = 2000000000` (an accepted `Set` of exactly
`maxBalance`), a `Spend` of `-100000000` is within the per-transaction cap,
is accepted with status 200, and leaves `balance = 2100000000 > maxBalance`;
a second identical accepted `Spend` silently wraps the 32-bit balance to
`-2094967296`.  The code checks only the request fields, never the resulting
balance. -/
theorem cap_and_wrap_violated_by_accepted_ops :
    (serverStep ["PAUL"] true ⟨0, 0⟩ (encodeState ⟨0, 0⟩)
      ⟨.set, "POST", "PAUL", "10.0.0.9:1", true, 2000000000⟩).status = 200 ∧
    (serverStep ["PAUL"] true ⟨0, 0⟩ (encodeState ⟨0, 0⟩)
      ⟨.set, "POST", "PAUL", "10.0.0.9:1", true, 2000000000⟩).st = ⟨2000000000, 0⟩ ∧
    (serverStep ["PAUL"] true ⟨2000000000, 0⟩ (encodeState ⟨2000000000, 0⟩)
      ⟨.spend, "POST", "PAUL", "10.0.0.9:1", true, -100000000⟩).status = 200 ∧
    (serverStep ["PAUL"] true ⟨2000000000, 0⟩ (encodeState ⟨2000000000, 0⟩)
      ⟨.spend, "POST", "PAUL", "10.0.0.9:1", true, -100000000⟩).st.balance = 2100000000 ∧
    maxBalance < 2100000000 ∧
    (serverStep ["PAUL"] true ⟨2100000000, 0⟩ (encodeState ⟨2100000000, 0⟩)
      ⟨.spend, "POST", "PAUL", "10.0.0.9:1", true, -100000000⟩).status = 200 ∧
    (serverStep ["PAUL"] true ⟨2100000000, 0⟩ (encodeState ⟨2100000000, 0⟩)
      ⟨.spend, "POST", "PAUL", "10.0.0.9:1", true, -100000000⟩).st.balance = -2094967296 := by
  refine ⟨by decide, by decide, by decide, by decide, by decide, by decide, by decide⟩

/-- Claim C2, counterexample.  A `Spend` of 30 from committed state
`{100, 0}` whose `saveData` fails at the open (a real failure mode, leaving
the old bytes) answers 500 and writes no audit record, but the in-memory
balance is already 70 while the file still decodes to `{100, 0}`: memory
does not equal the last durably committed state. -/
theorem persist_failure_memory_disk_disagree :
    stepPersistFail ["PAUL"] ⟨100, 0⟩ (encodeState ⟨100, 0⟩)
      ⟨.spend, "POST", "PAUL", "10.0.0.9:1", true, 30⟩
      ⟨500, .text "Internal Server Error", ⟨70, 0⟩, encodeState ⟨100, 0⟩, [], [], true⟩ ∧
    decodeState (encodeState ⟨100, 0⟩) = some ⟨100, 0⟩ ∧
    (⟨70, 0⟩ : LedgerState) ≠ ⟨100, 0⟩ := by
  refine ⟨⟨encodeState ⟨100, 0⟩, Or.inl rfl, by decide⟩, by decide, by decide⟩

/-- Claim C2, amended.  For every mutating operation with an accepted input,
a persist failure inside the exclusive section answers 500 and writes no
transaction audit record for that attempt — but the in-memory state has
already been mutated before the persist attempt, and the state file holds
whatever the failed truncate-then-write left behind (the old bytes only if
the open itself failed, otherwise a possibly-truncated prefix of the new
bytes), so memory and disk can disagree. -/
theorem persist_failure_500_no_audit_state_mutated (users : List String)
    (st : LedgerState) (disk : List Nat) (r : Request) (o : Outcome)
    (hm : r.method = "POST") (ha : ¬(r.auth = "" ∨ r.auth ∉ users))
    (hb : r.bodyOk = true) :
    (r.route = .set → r.amount ≤ maxBalance → stepPersistFail users st disk r o →
      o.status = 500 ∧ o.trans = [] ∧ o.st = { st with balance := r.amount } ∧
      failedSaveResidue disk (encodeState o.st) o.disk) ∧
    (r.route = .spend → -spendLimit ≤ r.amount → r.amount ≤ spendLimit →
      stepPersistFail users st disk r o →
      o.status = 500 ∧ o.trans = [] ∧
      o.st = { st with balance := wrap32 (st.balance - r.amount) } ∧
      failedSaveResidue disk (encodeState o.st) o.disk) ∧
    (r.route = .setBudget → 0 ≤ r.amount → r.amount ≤ maxBalance →
      stepPersistFail users st disk r o →
      o.status = 500 ∧ o.trans = [] ∧
      o.st = ⟨wrap32 (st.balance + wrap32 (r.amount - st.budget)), r.amount⟩ ∧
      failedSaveResidue disk (encodeState o.st) o.disk) := by
  have hmo : r.method ≠ "OPTIONS" := by
    rw [hm]
    decide
  refine ⟨?_, ?_, ?_⟩
  · intro hr hle hstep
    obtain ⟨residue, hres, ho⟩ := hstep
    have hs : serverStep users false st disk r =
        ⟨500, .text "Internal Server Error", { st with balance := r.amount },
          disk, [], [], true⟩ := by
      rw [serverStep_set users false st disk r hr hmo ha]
      exact handleSet_persistFail st disk r hm hb hle
    rw [hs] at hres
    subst ho
    rw [hs]
    exact ⟨rfl, rfl, rfl, hres⟩
  · intro hr hlo hhi hstep
    obtain ⟨residue, hres, ho⟩ := hstep
    have hs : serverStep users false st disk r =
        ⟨500, .text "Internal Server Error",
          { st with balance := wrap32 (st.balance - r.amount) }, disk, [], [], true⟩ := by
      rw [serverStep_spend users false st disk r hr hmo ha]
      exact handleSpend_persistFail st disk r hm hb hlo hhi
    rw [hs] at hres
    subst ho
    rw [hs]
    exact ⟨rfl, rfl, rfl, hres⟩
  · intro hr hlo hhi hstep
    obtain ⟨residue, hres, ho⟩ := hstep
    have hs : serverStep users false st disk r =
        ⟨500, .text "Internal Server Error",
          ⟨wrap32 (st.balance + wrap32 (r.amount - st.budget)), r.amount⟩,
          disk, [], [], true⟩ := by
      rw [serverStep_setBudget users false st disk r hr hmo ha]
      exact handleSetBudget_persistFail st disk r hm hb hlo hhi
    rw [hs] at hres
    subst ho
    rw [hs]
    exact ⟨rfl, rfl, rfl, hres⟩

/-- Witness for the amended C2 theorem at a concrete spend whose failed save
truncated the file to empty. -/
theorem persist_failure_500_no_audit_state_mutated_witness :
    (⟨500, .text "Internal Server Error", ⟨70, 0⟩, [], [], [], true⟩ : Outcome).status = 500 ∧
    (⟨500, .text "Internal Server Error", ⟨70, 0⟩, [], [], [], true⟩ : Outcome).trans = [] ∧
    (⟨500, .text "Internal Server Error", ⟨70, 0⟩, [], [], [], true⟩ : Outcome).st = ⟨70, 0⟩ ∧
    failedSaveResidue (encodeState ⟨100, 0⟩) (encodeState ⟨70, 0⟩) [] := by
  have hstep : stepPersistFail ["PAUL"] ⟨100, 0⟩ (encodeState ⟨100, 0⟩)
      ⟨.spend, "POST", "PAUL", "10.0.0.9:1", true, 30⟩
      ⟨500, .text "Internal Server Error", ⟨70, 0⟩, [], [], [], true⟩ :=
    ⟨[], Or.inr ⟨0, by decide, rfl⟩, by decide⟩
  have h := persist_failure_500_no_audit_state_mutated ["PAUL"] ⟨100, 0⟩
    (encodeState ⟨100, 0⟩) ⟨.spend, "POST", "PAUL", "10.0.0.9:1", true, 30⟩
    ⟨500, .text "Internal Server Error", ⟨70, 0⟩, [], [], [], true⟩ rfl (by decide) rfl
  obtain ⟨h1, h2, h3, h4⟩ := h.2.1 rfl (by decide) (by decide) hstep
  exact ⟨h1, h2, h3.trans (by decide), by
    have h5 : encodeState (⟨500, .text "Internal Server Error", ⟨70, 0⟩, [], [], [],
        true⟩ : Outcome).st = encodeState ⟨70, 0⟩ := rfl
    rw [← h5]
    exact h4⟩

/-- Claim C3.  An accepted `Set-budget` with `0 ≤ b ≤ maxBalance` sets the
budget to `b` and adds `b - oldBudget` to the balance (in `int32`
arithmetic; exactly, whenever the mathematical sum is representable); in
particular a change from budget 100 to 150 credits 50 and a change from 100
to 40 debits 60. -/
theorem setBudget_adjusts_balance_by_diff (users : List String) (st : LedgerState)
    (disk : List Nat) (r : Request) (hr : r.route = .setBudget) (hm : r.method = "POST")
    (ha : ¬(r.auth = "" ∨ r.auth ∉ users)) (hb : r.bodyOk = true)
    (hlo : 0 ≤ r.amount) (hhi : r.amount ≤ maxBalance) :
    (serverStep users true st disk r).status = 200 ∧
    (serverStep users true st disk r).st.budget = r.amount ∧
    (serverStep users true st disk r).st.balance =
      wrap32 (st.balance + (r.amount - st.budget)) ∧
    (isInt32 (st.balance + (r.amount - st.budget)) →
      (serverStep users true st disk r).st.balance =
        st.balance + (r.amount - st.budget)) ∧
    (st.budget = 100 → r.amount = 150 → isInt32 (st.balance + 50) →
      (serverStep users true st disk r).st.balance = st.balance + 50) ∧
    (st.budget = 100 → r.amount = 40 → isInt32 (st.balance - 60) →
      (serverStep users true st disk r).st.balance = st.balance - 60) := by
  have hmo : r.method ≠ "OPTIONS" := by
    rw [hm]
    decide
  rw [serverStep_setBudget users true st disk r hr hmo ha,
    handleSetBudget_success st disk r hm hb hlo hhi]
  refine ⟨rfl, rfl, wrap32_add_wrap _ _, ?_, ?_, ?_⟩
  · intro h
    exact (wrap32_add_wrap _ _).trans (wrap32_eq_self h)
  · intro h100 h150 hint
    show wrap32 (st.balance + wrap32 (r.amount - st.budget)) = st.balance + 50
    rw [h100, h150, wrap32_add_wrap]
    have he : st.balance + ((150 : Int) - 100) = st.balance + 50 := by ring
    rw [he]
    exact wrap32_eq_self hint
  · intro h100 h40 hint
    show wrap32 (st.balance + wrap32 (r.amount - st.budget)) = st.balance - 60
    rw [h100, h40, wrap32_add_wrap]
    have he : st.balance + ((40 : Int) - 100) = st.balance - 60 := by ring
    rw [he]
    exact wrap32_eq_self hint

/-- Witness for C3: budget 100 → 150 on balance 7 gives balance 57. -/
theorem setBudget_adjusts_balance_by_diff_witness :
    (serverStep ["PAUL"] true ⟨7, 100⟩ []
      ⟨.setBudget, "POST", "PAUL", "10.0.0.9:1", true, 150⟩).status = 200 ∧
    (serverStep ["PAUL"] true ⟨7, 100⟩ []
      ⟨.setBudget, "POST", "PAUL", "10.0.0.9:1", true, 150⟩).st.budget = 150 ∧
    (serverStep ["PAUL"] true ⟨7, 100⟩ []
      ⟨.setBudget, "POST", "PAUL", "10.0.0.9:1", true, 150⟩).st.balance = 57 := by
  obtain ⟨h1, h2, -, -, h5, -⟩ := setBudget_adjusts_balance_by_diff ["PAUL"] ⟨7, 100⟩ []
    ⟨.setBudget, "POST", "PAUL", "10.0.0.9:1", true, 150⟩ rfl rfl (by decide) rfl
    (by decide) (by decide)
  exact ⟨h1, h2, (h5 rfl rfl (by decide)).trans (by decide)⟩

/-- Claim C4.  Encoding any `int32` pair as 8 bytes and decoding them yields
the same pair, and consequently, for every sequence of requests (with
persistence succeeding), the persisted 8-byte state after each operation
decodes to exactly the in-memory pair at that point. -/
theorem persisted_state_roundtrip :
    (∀ s : LedgerState, stValid s → decodeState (encodeState s) = some s) ∧
    (∀ (users : List String) (reqs : List Request) (st : LedgerState) (disk : List Nat),
      stValid st → disk = encodeState st → (∀ r ∈ reqs, reqValid r) →
      decodeState (runRequests users reqs st disk).2 =
        some (runRequests users reqs st disk).1) := by
  constructor
  · exact fun s h => decodeState_encodeState h
  · intro users reqs st disk hv hd hall
    have h := runRequests_preserves users reqs st disk hv hd hall
    rw [h.2]
    exact decodeState_encodeState h.1

/-- Witness for C4 at a concrete pair and a concrete request sequence. -/
theorem persisted_state_roundtrip_witness :
    decodeState (encodeState ⟨-5, 7⟩) = some ⟨-5, 7⟩ ∧
    decodeState (runRequests ["PAUL"]
        [⟨.spend, "POST", "PAUL", "10.0.0.9:1", true, 30⟩,
         ⟨.setBudget, "POST", "PAUL", "10.0.0.9:1", true, 200⟩]
        ⟨0, 0⟩ (encodeState ⟨0, 0⟩)).2 =
      some (runRequests ["PAUL"]
        [⟨.spend, "POST", "PAUL", "10.0.0.9:1", true, 30⟩,
         ⟨.setBudget, "POST", "PAUL", "10.0.0.9:1", true, 200⟩]
        ⟨0, 0⟩ (encodeState ⟨0, 0⟩)).1 := by
  exact ⟨persisted_state_roundtrip.1 ⟨-5, 7⟩ (by decide),
    persisted_state_roundtrip.2 ["PAUL"]
      [⟨.spend, "POST", "PAUL", "10.0.0.9:1", true, 30⟩,
       ⟨.setBudget, "POST", "PAUL", "10.0.0.9:1", true, 200⟩]
      ⟨0, 0⟩ (encodeState ⟨0, 0⟩) (by decide) rfl (by decide)⟩

/-- Claim C5.  Loading a 4-byte legacy file whose little-endian `int32`
value is `V` yields in-memory `{V, 0}` and immediately re-saves in the
8-byte format; the resulting file is 8 bytes and still decodes `V` as the
balance, with no loss. -/
theorem legacy_4byte_migration (b0 b1 b2 b3 : Nat)
    (h0 : b0 < 256) (h1 : b1 < 256) (h2 : b2 < 256) (h3 : b3 < 256) :
    loadData (some [b0, b1, b2, b3]) =
      .ok (⟨wrap32 (fromLE [b0, b1, b2, b3]), 0⟩,
        some (encodeState ⟨wrap32 (fromLE [b0, b1, b2, b3]), 0⟩)) ∧
    (encodeState ⟨wrap32 (fromLE [b0, b1, b2, b3]), 0⟩).length = 8 ∧
    decodeState (encodeState ⟨wrap32 (fromLE [b0, b1, b2, b3]), 0⟩) =
      some ⟨wrap32 (fromLE [b0, b1, b2, b3]), 0⟩ := by
  exact ⟨rfl, encodeState_length _,
    decodeState_encodeState ⟨wrap32_isInt32 _, (by decide : isInt32 0)⟩⟩

/-- Witness for C5 at the legacy file `[1, 2, 0, 0]` (value 513). -/
theorem legacy_4byte_migration_witness :
    loadData (some [1, 2, 0, 0]) =
      .ok (⟨wrap32 (fromLE [1, 2, 0, 0]), 0⟩,
        some (encodeState ⟨wrap32 (fromLE [1, 2, 0, 0]), 0⟩)) ∧
    (encodeState ⟨wrap32 (fromLE [1, 2, 0, 0]), 0⟩).length = 8 ∧
    decodeState (encodeState ⟨wrap32 (fromLE [1, 2, 0, 0]), 0⟩) =
      some ⟨wrap32 (fromLE [1, 2, 0, 0]), 0⟩ ∧
    wrap32 (fromLE [1, 2, 0, 0]) = 513 := by
  have h := legacy_4byte_migration 1 2 0 0 (by decide) (by decide) (by decide) (by decide)
  exact ⟨h.1, h.2.1, h.2.2, by decide⟩

/-- Claim C6.  A `Spend` with `-100000000 ≤ amount ≤ 100000000` (endpoints
included) is accepted: the balance becomes `balance - amount` in `int32`
arithmetic (exactly, whenever representable; no floor, it may go negative)
and the new balance is returned as plain text.  An amount outside the cap is
rejected with 400, the balance is unchanged, and no audit record is
written. -/
theorem spend_cap_semantics (users : List String) (st : LedgerState) (disk : List Nat)
    (r : Request) (hr : r.route = .spend) (hm : r.method = "POST")
    (ha : ¬(r.auth = "" ∨ r.auth ∉ users)) (hb : r.bodyOk = true) :
    ((-100000000 ≤ r.amount ∧ r.amount ≤ 100000000) →
      (serverStep users true st disk r).status = 200 ∧
      (serverStep users true st disk r).st.balance = wrap32 (st.balance - r.amount) ∧
      (serverStep users true st disk r).st.budget = st.budget ∧
      (isInt32 (st.balance - r.amount) →
        (serverStep users true st disk r).st.balance = st.balance - r.amount) ∧
      (serverStep users true st disk r).body =
        .text (toString (wrap32 (st.balance - r.amount)))) ∧
    ((100000000 < r.amount ∨ r.amount < -100000000) →
      ∀ pOk : Bool, (serverStep users pOk st disk r).status = 400 ∧
        (serverStep users pOk st disk r).st = st ∧
        (serverStep users pOk st disk r).trans = []) := by
  have hmo : r.method ≠ "OPTIONS" := by
    rw [hm]
    decide
  constructor
  · rintro ⟨hlo, hhi⟩
    rw [serverStep_spend users true st disk r hr hmo ha,
      handleSpend_success st disk r hm hb hlo hhi]
    refine ⟨rfl, rfl, rfl, ?_, rfl⟩
    intro h
    exact wrap32_eq_self h
  · intro hout pOk
    rw [serverStep_spend users pOk st disk r hr hmo ha,
      handleSpend_reject pOk st disk r hm hb hout]
    exact ⟨rfl, rfl, rfl⟩

/-- Witness for C6: an accepted spend of 30 from balance 100, and a rejected
spend of 200000000. -/
theorem spend_cap_semantics_witness :
    (serverStep ["PAUL"] true ⟨100, 0⟩ (encodeState ⟨100, 0⟩)
      ⟨.spend, "POST", "PAUL", "10.0.0.9:1", true, 30⟩).status = 200 ∧
    (serverStep ["PAUL"] true ⟨100, 0⟩ (encodeState ⟨100, 0⟩)
      ⟨.spend, "POST", "PAUL", "10.0.0.9:1", true, 30⟩).st.balance = 70 ∧
    (serverStep ["PAUL"] false ⟨100, 0⟩ []
      ⟨.spend, "POST", "PAUL", "10.0.0.9:1", true, 200000000⟩).status = 400 ∧
    (serverStep ["PAUL"] false ⟨100, 0⟩ []
      ⟨.spend, "POST", "PAUL", "10.0.0.9:1", true, 200000000⟩).trans = [] := by
  have h := spend_cap_semantics ["PAUL"] ⟨100, 0⟩ (encodeState ⟨100, 0⟩)
    ⟨.spend, "POST", "PAUL", "10.0.0.9:1", true, 30⟩ rfl rfl (by decide) rfl
  have g := spend_cap_semantics ["PAUL"] ⟨100, 0⟩ []
    ⟨.spend, "POST", "PAUL", "10.0.0.9:1", true, 200000000⟩ rfl rfl (by decide) rfl
  obtain ⟨h1, h2, -, -, -⟩ := h.1 (by decide)
  exact ⟨h1, h2.trans (by decide), (g.2 (by decide) false).1, (g.2 (by decide) false).2.2⟩

/-- Claim C7.  Every non-`OPTIONS` request with an empty credential or one
outside the allowlist is answered 401, appends exactly one unauthorized-log
record holding the token as supplied plus the remote address, does not run
the handler, and leaves state, disk and the transaction log unchanged. -/
theorem unauthorized_401_logged_once (users : List String) (pOk : Bool)
    (st : LedgerState) (disk : List Nat) (r : Request) (hmo : r.method ≠ "OPTIONS")
    (ha : r.auth = "" ∨ r.auth ∉ users) :
    serverStep users pOk st disk r =
      ⟨401, .text "Unauthorized", st, disk, [], [⟨r.auth, r.remoteAddr⟩], false⟩ := by
  unfold serverStep
  rw [if_neg hmo, if_pos ha]

/-- Witness for C7: an empty credential and an unknown credential each yield
401 with exactly one unauthorized record. -/
theorem unauthorized_401_logged_once_witness :
    serverStep ["PAUL"] true ⟨3, 4⟩ [] ⟨.get, "GET", "", "9.9.9.9:1", true, 0⟩ =
      ⟨401, .text "Unauthorized", ⟨3, 4⟩, [], [], [⟨"", "9.9.9.9:1"⟩], false⟩ ∧
    serverStep ["PAUL"] true ⟨3, 4⟩ [] ⟨.spend, "POST", "EVE", "9.9.9.9:2", true, 5⟩ =
      ⟨401, .text "Unauthorized", ⟨3, 4⟩, [], [], [⟨"EVE", "9.9.9.9:2"⟩], false⟩ := by
  exact ⟨unauthorized_401_logged_once ["PAUL"] true ⟨3, 4⟩ []
      ⟨.get, "GET", "", "9.9.9.9:1", true, 0⟩ (by decide) (Or.inl rfl),
    unauthorized_401_logged_once ["PAUL"] true ⟨3, 4⟩ []
      ⟨.spend, "POST", "EVE", "9.9.9.9:2", true, 5⟩ (by decide) (Or.inr (by decide))⟩

/-- Claim C9.  An `OPTIONS` request on any route returns 200 with no body,
regardless of the credential supplied, never logs an unauthorized record,
never runs the handler, and changes nothing. -/
theorem options_bypasses_auth (users : List String) (pOk : Bool) (st : LedgerState)
    (disk : List Nat) (r : Request) (hm : r.method = "OPTIONS") :
    serverStep users pOk st disk r = ⟨200, .empty, st, disk, [], [], false⟩ := by
  unfold serverStep
  rw [if_pos hm]

/-- Witness for C9: an `OPTIONS` probe with no credential on a mutating
route. -/
theorem options_bypasses_auth_witness :
    serverStep ["PAUL"] true ⟨3, 4⟩ [] ⟨.spend, "OPTIONS", "", "9.9.9.9:1", false, 0⟩ =
      ⟨200, .empty, ⟨3, 4⟩, [], [], [], false⟩ := by
  exact options_bypasses_auth ["PAUL"] true ⟨3, 4⟩ []
    ⟨.spend, "OPTIONS", "", "9.9.9.9:1", false, 0⟩ rfl

/-- Claim C10.  The amount field of every transaction audit record is the
requested value: the requested new budget for `BUDGET_CHANGE` (not the diff
applied to the balance), the requested absolute amount for `SET`, and the
requested spend amount for `SPEND` — never the resulting balance. -/
theorem audit_amount_is_requested_value (users : List String) (st : LedgerState)
    (disk : List Nat) (r : Request) (hm : r.method = "POST")
    (ha : ¬(r.auth = "" ∨ r.auth ∉ users)) (hb : r.bodyOk = true) :
    (r.route = .set → r.amount ≤ maxBalance →
      (serverStep users true st disk r).trans = [⟨r.auth, "SET", r.amount⟩]) ∧
    (r.route = .spend → -spendLimit ≤ r.amount → r.amount ≤ spendLimit →
      (serverStep users true st disk r).trans = [⟨r.auth, "SPEND", r.amount⟩]) ∧
    (r.route = .setBudget → 0 ≤ r.amount → r.amount ≤ maxBalance →
      (serverStep users true st disk r).trans =
        [⟨r.auth, "BUDGET_CHANGE", r.amount⟩]) := by
  have hmo : r.method ≠ "OPTIONS" := by
    rw [hm]
    decide
  refine ⟨?_, ?_, ?_⟩
  · intro hr hle
    rw [serverStep_set users true st disk r hr hmo ha,
      handleSet_success st disk r hm hb hle]
  · intro hr hlo hhi
    rw [serverStep_spend users true st disk r hr hmo ha,
      handleSpend_success st disk r hm hb hlo hhi]
  · intro hr hlo hhi
    rw [serverStep_setBudget users true st disk r hr hmo ha,
      handleSetBudget_success st disk r hm hb hlo hhi]

/-- Witness for C10: a budget change 100 → 150 on balance 7 logs amount 150,
which is neither the diff (50) nor the resulting balance (57). -/
theorem audit_amount_is_requested_value_witness :
    (serverStep ["PAUL"] true ⟨7, 100⟩ []
      ⟨.setBudget, "POST", "PAUL", "10.0.0.9:1", true, 150⟩).trans =
      [⟨"PAUL", "BUDGET_CHANGE", 150⟩] ∧
    (150 : Int) ≠ 150 - 100 ∧
    (serverStep ["PAUL"] true ⟨7, 100⟩ []
      ⟨.setBudget, "POST", "PAUL", "10.0.0.9:1", true, 150⟩).st.balance ≠ 150 := by
  have h := audit_amount_is_requested_value ["PAUL"] ⟨7, 100⟩ []
    ⟨.setBudget, "POST", "PAUL", "10.0.0.9:1", true, 150⟩ rfl (by decide) rfl
  exact ⟨h.2.2 rfl (by decide) (by decide), by decide, by decide⟩

/-- Claim C8, counterexample.  With a 5-byte state file, `loadData` fails
and startup leaves `{0, 0}`, but the mutation routes are registered anyway
and an authorized `Spend` is served and accepted (status 200, balance
mutated) — the service does serve mutation traffic after a corrupt load,
contrary to the claim's read-only requirement. -/
theorem corrupt_state_mutations_still_served :
    loadData (some [7, 7, 7, 7, 7]) = .error "invalid data length" ∧
    (startServer (some [7, 7, 7, 7, 7])).st = ⟨0, 0⟩ ∧
    (startServer (some [7, 7, 7, 7, 7])).mutationRoutes = true ∧
    (serverStep ["PAUL"] true ⟨0, 0⟩ [7, 7, 7, 7, 7]
      ⟨.spend, "POST", "PAUL", "10.0.0.9:1", true, 5⟩).status = 200 ∧
    (serverStep ["PAUL"] true ⟨0, 0⟩ [7, 7, 7, 7, 7]
      ⟨.spend, "POST", "PAUL", "10.0.0.9:1", true, 5⟩).st.balance = -5 := by
  exact ⟨rfl, rfl, rfl, by decide, by decide⟩

/-- Claim C8, amended.  A state file with a length other than 4 or 8 bytes
makes `loadData` fail with the invalid-length error while the in-memory
state stays `{0, 0}`; the service then logs a warning and continues serving
all routes, the mutating ones included (full read-write degradation with
zeros, not a read-only one). -/
theorem corrupt_state_warn_and_continue (data : List Nat)
    (h4 : data.length ≠ 4) (h8 : data.length ≠ 8) :
    loadData (some data) = .error "invalid data length" ∧
    (startServer (some data)).st = ⟨0, 0⟩ ∧
    (startServer (some data)).loadWarning = true ∧
    (startServer (some data)).mutationRoutes = true := by
  have hload : loadData (some data) = .error "invalid data length" := by
    simp [loadData, h4, h8]
  refine ⟨hload, ?_, ?_, ?_⟩ <;>
    · unfold startServer
      rw [hload]

/-- Witness for the amended C8 theorem at a 5-byte file. -/
theorem corrupt_state_warn_and_continue_witness :
    loadData (some [7, 7, 7, 7, 7]) = .error "invalid data length" ∧
    (startServer (some [7, 7, 7, 7, 7])).st = ⟨0, 0⟩ ∧
    (startServer (some [7, 7, 7, 7, 7])).loadWarning = true ∧
    (startServer (some [7, 7, 7, 7, 7])).mutationRoutes = true := by
  exact corrupt_state_warn_and_continue [7, 7, 7, 7, 7] (by decide) (by decide)

end Budget
